import Mathlib

/-
Verification development for the MOOSE granule-cell / Traub-2005 example
scripts (`ephys/granule_cell_hhchannel.py`, `ephys/granule_cell_hhchannel2.py`,
`ephys/granule_cell.py`, `traub_2005/mus/cells.py`).

Python floating-point arithmetic is embedded as real (`ℝ`) arithmetic:
`numpy.exp` becomes `Real.exp`, the Q10 power `Q10 ** e` becomes `Real.rpow`,
`numpy.where(cond, a, b)` on an elementwise condition becomes `if cond then a
else b`, `numpy.maximum` becomes `max`.  A value is "finite" (no NaN/Inf)
exactly when every division it performs has a nonzero denominator; where that
matters we make the division explicit through `safeDiv`, which returns `none`
on a zero denominator (the real-arithmetic counterpart of a float NaN/Inf).
-/

namespace GranuleHH1

/-- Voltage grid parameters of `granule_cell_hhchannel.py`:
`vmin = -150e-3`, `vmax = 100e-3`, `vdivs = 640`. -/
noncomputable def vmin : ℝ := -150e-3

/-- Upper bound of the voltage grid. -/
noncomputable def vmax : ℝ := 100e-3

/-- Number of grid divisions. -/
def vdivs : ℕ := 640

/-- The voltage grid `numpy.linspace(vmin, vmax, vdivs + 1)`: sample `i` is
`vmin + i * (vmax - vmin) / vdivs`. -/
noncomputable def grid (i : ℕ) : ℝ := vmin + i * ((vmax - vmin) / vdivs)

/-- Model specification temperature `temp_exp = 17.350264793` (°C). -/
noncomputable def temp_exp : ℝ := 17.350264793

/-- Simulation temperature `temp = 32.0` (°C). -/
noncomputable def temp : ℝ := 32.0

/-- Q10 coefficient. -/
noncomputable def Q10 : ℝ := 3

/-- Temperature factor `q10_mul = Q10 ** (0.1 * (temp - temp_exp))`. -/
noncomputable def q10_mul : ℝ := Q10 ^ (0.1 * (temp - temp_exp))

/-- Source voltage offset: the channel formulas use `V = v - v_offset` with
`v_offset = 10e-3` (in the table-building file) resp. the literal
`(v - 10e-3)` inside the rate strings (in the other two files). -/
noncomputable def Voff (v : ℝ) : ℝ := v - 10e-3

/- ------------------------------------------------------------------
KDR channel of `granule_cell_hhchannel.py` (`make_channel_KDR`).
The temperature factor multiplies each rate uniformly; we expose it as the
parameter `f` (the source instantiates `f = q10_mul`):
`alpha_m = f * 170 * exp(73 * (V - (-38e-3)))`,
`beta_m  = f * 170 * exp(-18 * (V - (-38e-3)))`,
`mgate.tableA = alpha_m`, `mgate.tableB = alpha_m + beta_m`.
------------------------------------------------------------------- -/

/-- KDR m-gate forward rate with explicit temperature factor `f`. -/
noncomputable def KDR_alpha_m (f v : ℝ) : ℝ :=
  f * (170 * Real.exp (73 * (Voff v - (-38e-3))))

/-- KDR m-gate backward rate with explicit temperature factor `f`. -/
noncomputable def KDR_beta_m (f v : ℝ) : ℝ :=
  f * (170 * Real.exp (-18 * (Voff v - (-38e-3))))

/-- KDR m-gate `tableA = alpha_m`. -/
noncomputable def KDR_tableA_m (f v : ℝ) : ℝ := KDR_alpha_m f v

/-- KDR m-gate `tableB = alpha_m + beta_m`. -/
noncomputable def KDR_tableB_m (f v : ℝ) : ℝ := KDR_alpha_m f v + KDR_beta_m f v

/-- KDR h-gate forward rate (`np.where(V > -0.046, 0.76, ...)` then
`alpha_h *= q10_mul`), with the uniform factor exposed as `f`. -/
noncomputable def KDR_alpha_h (f v : ℝ) : ℝ :=
  f * (if Voff v > -0.046 then 0.76
       else 0.7 + 0.065 * Real.exp (-80 * (Voff v - (-46e-3))))

/-- KDR h-gate backward rate (`beta_h = 1.1 / (1 + exp(-80.7 * (V - (-0.044))))`
then `beta_h *= q10_mul`), factor exposed as `f`. -/
noncomputable def KDR_beta_h (f v : ℝ) : ℝ :=
  f * (1.1 / (1 + Real.exp (-80.7 * (Voff v - (-0.044)))))

/-- KDR h-gate `tableA = alpha_h`. -/
noncomputable def KDR_tableA_h (f v : ℝ) : ℝ := KDR_alpha_h f v

/-- KDR h-gate `tableB = alpha_h + beta_h`. -/
noncomputable def KDR_tableB_h (f v : ℝ) : ℝ := KDR_alpha_h f v + KDR_beta_h f v

lemma KDR_alpha_m_pos (f v : ℝ) (hf : 0 < f) : 0 < KDR_alpha_m f v := by
  unfold KDR_alpha_m
  positivity

lemma KDR_beta_m_pos (f v : ℝ) (hf : 0 < f) : 0 < KDR_beta_m f v := by
  unfold KDR_beta_m
  positivity

lemma KDR_tableB_m_pos (f v : ℝ) (hf : 0 < f) : 0 < KDR_tableB_m f v :=
  add_pos (KDR_alpha_m_pos f v hf) (KDR_beta_m_pos f v hf)

end GranuleHH1

/-- C1: for every voltage `v` (in particular every voltage sample on the gate grid)
and every positive temperature factor `f`, multiplying both `alpha` and `beta`
of the KDR m-gate by `f` — exactly where `make_channel_KDR` puts `q10_mul` —
leaves the steady state `xinf = tableA/tableB = alpha/(alpha+beta)` equal to
its unscaled (`f = 1`) value, while the time constant `tau = 1/tableB` equals
the unscaled `tau` divided by `f`. -/
theorem q10_scaling_preserves_xinf_scales_tau (v f : ℝ) (hf : 0 < f) :
    GranuleHH1.KDR_tableA_m f v / GranuleHH1.KDR_tableB_m f v =
      GranuleHH1.KDR_tableA_m 1 v / GranuleHH1.KDR_tableB_m 1 v ∧
    1 / GranuleHH1.KDR_tableB_m f v =
      (1 / GranuleHH1.KDR_tableB_m 1 v) / f := by
  have hB1 : 0 < GranuleHH1.KDR_tableB_m 1 v :=
    GranuleHH1.KDR_tableB_m_pos 1 v one_pos
  have hBf : 0 < GranuleHH1.KDR_tableB_m f v :=
    GranuleHH1.KDR_tableB_m_pos f v hf
  constructor
  · unfold GranuleHH1.KDR_tableA_m GranuleHH1.KDR_tableB_m
      GranuleHH1.KDR_alpha_m GranuleHH1.KDR_beta_m at *
    rw [div_eq_div_iff (ne_of_gt hBf) (ne_of_gt hB1)]
    ring
  · unfold GranuleHH1.KDR_tableB_m GranuleHH1.KDR_alpha_m
      GranuleHH1.KDR_beta_m at *
    field_simp
    ring

/-- Witness for C1: concrete instantiation at `v = 0`, `f = 2`. -/
theorem q10_scaling_preserves_xinf_scales_tau_witness :
    GranuleHH1.KDR_tableA_m 2 0 / GranuleHH1.KDR_tableB_m 2 0 =
      GranuleHH1.KDR_tableA_m 1 0 / GranuleHH1.KDR_tableB_m 1 0 ∧
    1 / GranuleHH1.KDR_tableB_m 2 0 =
      (1 / GranuleHH1.KDR_tableB_m 1 0) / 2 :=
  q10_scaling_preserves_xinf_scales_tau 0 2 (by norm_num)

/-- Division made strict about singularities: `safeDiv a b` is `none` when
`b = 0` — the real-arithmetic stand-in for the float `NaN`/`Inf` that `a / b`
would produce — and `some (a / b)` otherwise. -/
noncomputable def safeDiv (a b : ℝ) : Option ℝ :=
  if b = 0 then none else some (a / b)

namespace GranuleHH1

/- ------------------------------------------------------------------
CaHVA channel of `granule_cell_hhchannel.py` (`make_channel_CaHVA`):
`alpha_m = (1600 / (1 + exp(-72 * (V - 5e-3)))) * q10_mul`
`x = (V - (-8.9e-3)) / (-0.005)`
`beta_m = 100 * x / (1 - exp(-x)) * q10_mul`
`alpha_h = 5 * exp(-50 * (V - (-0.06))) * q10_mul`, overridden to
`5.0 * q10_mul` where `V < -0.060`
`beta_h = (5 - 5 * exp(-50 * (V - (-0.060)))) * q10_mul`, overridden to `0.0`
where `V < -0.060`
`tableA = alpha`, `tableB = alpha + beta` for both gates.
------------------------------------------------------------------- -/

/-- CaHVA m-gate forward rate. -/
noncomputable def CaHVA_alpha_m (v : ℝ) : ℝ :=
  (1600 / (1 + Real.exp (-72 * (Voff v - 5e-3)))) * q10_mul

/-- The auxiliary variable `x = (V - (-8.9e-3)) / (-0.005)` of the CaHVA
m-gate backward rate. -/
noncomputable def CaHVA_x (v : ℝ) : ℝ := (Voff v - (-8.9e-3)) / (-0.005)

/-- CaHVA m-gate backward rate `100 * x / (1 - exp(-x)) * q10_mul`. -/
noncomputable def CaHVA_beta_m (v : ℝ) : ℝ :=
  100 * CaHVA_x v / (1 - Real.exp (-CaHVA_x v)) * q10_mul

/-- CaHVA m-gate backward rate with its division through `safeDiv`: `none`
exactly where the float computation would produce a NaN (the removable `0/0`
singularity of `100*x / (1 - exp(-x))` at `x = 0`). -/
noncomputable def CaHVA_beta_m_safe (v : ℝ) : Option ℝ :=
  Option.map (fun r => r * q10_mul)
    (safeDiv (100 * CaHVA_x v) (1 - Real.exp (-CaHVA_x v)))

/-- CaHVA h-gate forward rate (mask assignment `alpha_h[V < -0.060] = 5.0 *
q10_mul` folded into a conditional). -/
noncomputable def CaHVA_alpha_h (v : ℝ) : ℝ :=
  if Voff v < -0.060 then 5.0 * q10_mul
  else 5 * Real.exp (-50 * (Voff v - (-0.06))) * q10_mul

/-- CaHVA h-gate backward rate (mask assignment `beta_h[V < -0.060] = 0.0`
folded into a conditional). -/
noncomputable def CaHVA_beta_h (v : ℝ) : ℝ :=
  if Voff v < -0.060 then 0.0
  else (5 - 5 * Real.exp (-50 * (Voff v - (-0.060)))) * q10_mul

/-- CaHVA m-gate `tableA = alpha_m`. -/
noncomputable def CaHVA_tableA_m (v : ℝ) : ℝ := CaHVA_alpha_m v

/-- CaHVA m-gate `tableB = alpha_m + beta_m`. -/
noncomputable def CaHVA_tableB_m (v : ℝ) : ℝ := CaHVA_alpha_m v + CaHVA_beta_m v

/-- CaHVA h-gate `tableA = alpha_h`. -/
noncomputable def CaHVA_tableA_h (v : ℝ) : ℝ := CaHVA_alpha_h v

/-- CaHVA h-gate `tableB = alpha_h + beta_h`. -/
noncomputable def CaHVA_tableB_h (v : ℝ) : ℝ := CaHVA_alpha_h v + CaHVA_beta_h v

/- ------------------------------------------------------------------
NaF channel of `granule_cell_hhchannel.py` (`make_channel_NaF`):
`alpha_m = 1500 * exp(81 * (V - (-39e-3)))`
`beta_m  = 1500 * exp(-66 * (V - (-39e-3)))`
`tau_m = np.where(alpha_m + beta_m == 0, 0,
                  np.maximum(1 / (alpha_m + beta_m), 5e-5)) / q10_mul`
`inf_m = alpha_m / (alpha_m + beta_m)`
`mgate.tableA = inf_m / tau_m`, `mgate.tableB = 1 / tau_m`
`alpha_h = 120 * exp(-89 * (V - (-0.05)))`
`beta_h  = 120 * exp(89 * (V - (-0.05)))`
`tau_h` as `tau_m` with floor `2.25e-4`; `hgate.tableA = inf_h / tau_h`,
`hgate.tableB = 1 / tau_h`.
The final `/ q10_mul` is exposed as the parameter `f` where a claim
quantifies over the temperature factor.
------------------------------------------------------------------- -/

/-- NaF m-gate forward rate. -/
noncomputable def NaF_alpha_m (v : ℝ) : ℝ :=
  1500 * Real.exp (81 * (Voff v - (-39e-3)))

/-- NaF m-gate backward rate. -/
noncomputable def NaF_beta_m (v : ℝ) : ℝ :=
  1500 * Real.exp (-66 * (Voff v - (-39e-3)))

/-- The guarded, clamped `np.where(a + b == 0, 0, np.maximum(1/(a+b), fl))`
pattern shared by the NaF time constants. -/
noncomputable def tau_guard (a b fl : ℝ) : ℝ :=
  if a + b = 0 then 0 else max (1 / (a + b)) fl

/-- NaF m-gate time constant with the final division (source: `/ q10_mul`)
exposed as the factor `f`. -/
noncomputable def NaF_tau_m_f (f v : ℝ) : ℝ :=
  tau_guard (NaF_alpha_m v) (NaF_beta_m v) 5e-5 / f

/-- NaF m-gate time constant as built by the source (`f = q10_mul`). -/
noncomputable def NaF_tau_m (v : ℝ) : ℝ := NaF_tau_m_f q10_mul v

/-- NaF m-gate steady state `inf_m = alpha_m / (alpha_m + beta_m)`. -/
noncomputable def NaF_inf_m (v : ℝ) : ℝ :=
  NaF_alpha_m v / (NaF_alpha_m v + NaF_beta_m v)

/-- NaF m-gate `tableA = inf_m / tau_m`. -/
noncomputable def NaF_tableA_m (v : ℝ) : ℝ := NaF_inf_m v / NaF_tau_m v

/-- NaF m-gate `tableB = 1 / tau_m`. -/
noncomputable def NaF_tableB_m (v : ℝ) : ℝ := 1 / NaF_tau_m v

/-- NaF h-gate forward rate. -/
noncomputable def NaF_alpha_h (v : ℝ) : ℝ :=
  120 * Real.exp (-89 * (Voff v - (-0.05)))

/-- NaF h-gate backward rate. -/
noncomputable def NaF_beta_h (v : ℝ) : ℝ :=
  120 * Real.exp (89 * (Voff v - (-0.05)))

/-- NaF h-gate time constant with the final division exposed as `f`. -/
noncomputable def NaF_tau_h_f (f v : ℝ) : ℝ :=
  tau_guard (NaF_alpha_h v) (NaF_beta_h v) 2.25e-4 / f

/-- NaF h-gate time constant as built by the source (`f = q10_mul`). -/
noncomputable def NaF_tau_h (v : ℝ) : ℝ := NaF_tau_h_f q10_mul v

/-- NaF h-gate steady state. -/
noncomputable def NaF_inf_h (v : ℝ) : ℝ :=
  NaF_alpha_h v / (NaF_alpha_h v + NaF_beta_h v)

/-- NaF h-gate `tableA = inf_h / tau_h`. -/
noncomputable def NaF_tableA_h (v : ℝ) : ℝ := NaF_inf_h v / NaF_tau_h v

/-- NaF h-gate `tableB = 1 / tau_h`. -/
noncomputable def NaF_tableB_h (v : ℝ) : ℝ := 1 / NaF_tau_h v

lemma q10_mul_pos : 0 < q10_mul :=
  Real.rpow_pos_of_pos (by norm_num [Q10]) _

lemma one_lt_q10_mul : 1 < q10_mul := by
  rw [q10_mul, Real.one_lt_rpow_iff_of_pos (by norm_num [Q10])]
  left
  constructor
  · norm_num [Q10]
  · norm_num [temp, temp_exp]

lemma NaF_denom_m_pos (v : ℝ) : 0 < NaF_alpha_m v + NaF_beta_m v := by
  have h1 : 0 < NaF_alpha_m v := by unfold NaF_alpha_m; positivity
  have h2 : 0 < NaF_beta_m v := by unfold NaF_beta_m; positivity
  linarith

lemma NaF_denom_h_pos (v : ℝ) : 0 < NaF_alpha_h v + NaF_beta_h v := by
  have h1 : 0 < NaF_alpha_h v := by unfold NaF_alpha_h; positivity
  have h2 : 0 < NaF_beta_h v := by unfold NaF_beta_h; positivity
  linarith

lemma tau_guard_pos (a b fl : ℝ) (hab : 0 < a + b) (hfl : 0 < fl) :
    0 < tau_guard a b fl := by
  rw [tau_guard, if_neg (ne_of_gt hab)]
  exact lt_max_of_lt_right hfl

lemma NaF_tau_m_pos (v : ℝ) : 0 < NaF_tau_m v := by
  rw [NaF_tau_m, NaF_tau_m_f]
  exact div_pos (tau_guard_pos _ _ _ (NaF_denom_m_pos v) (by norm_num))
    q10_mul_pos

lemma NaF_tau_h_pos (v : ℝ) : 0 < NaF_tau_h v := by
  rw [NaF_tau_h, NaF_tau_h_f]
  exact div_pos (tau_guard_pos _ _ _ (NaF_denom_h_pos v) (by norm_num))
    q10_mul_pos

lemma CaHVA_alpha_m_denom_pos (v : ℝ) :
    0 < 1 + Real.exp (-72 * (Voff v - 5e-3)) := by positivity

lemma CaHVA_h_denom_pos (v : ℝ) : 0 < CaHVA_alpha_h v + CaHVA_beta_h v := by
  rw [CaHVA_alpha_h, CaHVA_beta_h]
  by_cases h : Voff v < -0.060
  · rw [if_pos h, if_pos h]
    have := q10_mul_pos
    linarith
  · rw [if_neg h, if_neg h]
    have hq := q10_mul_pos
    have he : 0 < Real.exp (-50 * (Voff v - (-0.06))) := Real.exp_pos _
    have hle : Real.exp (-50 * (Voff v - (-0.060))) ≤ 1 := by
      rw [Real.exp_le_one_iff]
      push_neg at h
      nlinarith
    nlinarith

end GranuleHH1

namespace GranuleHH2

/-- Model specification temperature `TEMP_0 = 17.35` of
`granule_cell_hhchannel2.py`. -/
noncomputable def TEMP_0 : ℝ := 17.35

/-- Simulation temperature `TEMP_1 = 32.0`. -/
noncomputable def TEMP_1 : ℝ := 32.0

/-- Q10 coefficient. -/
noncomputable def Q10 : ℝ := 3.0

/-- Temperature factor `Q10_MUL = Q10 ** (0.1 * (TEMP_1 - TEMP_0))`. -/
noncomputable def Q10_MUL : ℝ := Q10 ^ (0.1 * (TEMP_1 - TEMP_0))

lemma Q10_MUL_pos : 0 < Q10_MUL :=
  Real.rpow_pos_of_pos (by norm_num [Q10]) _

lemma one_lt_Q10_MUL : 1 < Q10_MUL := by
  rw [Q10_MUL, Real.one_lt_rpow_iff_of_pos (by norm_num [Q10])]
  left
  constructor
  · norm_num [Q10]
  · norm_num [TEMP_0, TEMP_1]

/- ------------------------------------------------------------------
NaF channel of `granule_cell_hhchannel2.py` (`make_channel_NaF`).  The Q10
multiplier is incorporated in alpha and beta:
`alpha = Q10_MUL * 1500 * exp(81 * ((v - 10e-3) - (-39e-3)))`
`beta  = Q10_MUL * 1500 * exp(-66 * ((v - 10e-3) - (-39e-3)))`
`tauExpr = ~(..., tau := alpha + beta == 0 ? 0 : 1/(alpha + beta),
             max(tau, 1e-5))`
`infExpr = ~(..., alpha/(alpha + beta))`
and for the h-gate rates `120 * exp(∓89 * ((v - 10e-3) - (-0.05)))` with
floor `0.045e-3`.
------------------------------------------------------------------- -/

/-- hhchannel2 NaF m-gate forward rate (Q10 factor included). -/
noncomputable def NaF_alpha_m (v : ℝ) : ℝ :=
  Q10_MUL * 1500 * Real.exp (81 * ((v - 10e-3) - (-39e-3)))

/-- hhchannel2 NaF m-gate backward rate (Q10 factor included). -/
noncomputable def NaF_beta_m (v : ℝ) : ℝ :=
  Q10_MUL * 1500 * Real.exp (-66 * ((v - 10e-3) - (-39e-3)))

/-- hhchannel2 NaF m-gate `tauExpr`: the let-bound
`tau := alpha + beta == 0 ? 0 : 1/(alpha+beta)` followed by `max(tau, 1e-5)`. -/
noncomputable def NaF_tau_m (v : ℝ) : ℝ :=
  max (if NaF_alpha_m v + NaF_beta_m v = 0 then 0
       else 1 / (NaF_alpha_m v + NaF_beta_m v)) 1e-5

/-- hhchannel2 NaF m-gate `infExpr = alpha/(alpha+beta)`. -/
noncomputable def NaF_inf_m (v : ℝ) : ℝ :=
  NaF_alpha_m v / (NaF_alpha_m v + NaF_beta_m v)

/-- hhchannel2 NaF h-gate forward rate. -/
noncomputable def NaF_alpha_h (v : ℝ) : ℝ :=
  Q10_MUL * 120 * Real.exp (-89 * ((v - 10e-3) - (-0.05)))

/-- hhchannel2 NaF h-gate backward rate. -/
noncomputable def NaF_beta_h (v : ℝ) : ℝ :=
  Q10_MUL * 120 * Real.exp (89 * ((v - 10e-3) - (-0.05)))

/-- hhchannel2 NaF h-gate `tauExpr` with floor `0.045e-3`. -/
noncomputable def NaF_tau_h (v : ℝ) : ℝ :=
  max (if NaF_alpha_h v + NaF_beta_h v = 0 then 0
       else 1 / (NaF_alpha_h v + NaF_beta_h v)) 0.045e-3

/-- hhchannel2 NaF h-gate `infExpr`. -/
noncomputable def NaF_inf_h (v : ℝ) : ℝ :=
  NaF_alpha_h v / (NaF_alpha_h v + NaF_beta_h v)

/-- Modelled from the spec: `gate.tabFillExpr()` lives in the external MOOSE
engine, not under `src/`; per the TableBuilder contract of the spec (§4.3) a
`TauInf` gate stores `B = 1/tau` at each sample.  hhchannel2 NaF m-gate
`tableB`. -/
noncomputable def NaF_tableB_m (v : ℝ) : ℝ := 1 / NaF_tau_m v

/-- Modelled from the spec: as for `NaF_tableB_m` (TableBuilder §4.3,
`B = 1/tau`).  hhchannel2 NaF h-gate `tableB`. -/
noncomputable def NaF_tableB_h (v : ℝ) : ℝ := 1 / NaF_tau_h v

lemma NaF2_denom_m_pos (v : ℝ) : 0 < NaF_alpha_m v + NaF_beta_m v := by
  have hq := Q10_MUL_pos
  have h1 : 0 < NaF_alpha_m v := by unfold NaF_alpha_m; positivity
  have h2 : 0 < NaF_beta_m v := by unfold NaF_beta_m; positivity
  linarith

lemma NaF2_denom_h_pos (v : ℝ) : 0 < NaF_alpha_h v + NaF_beta_h v := by
  have hq := Q10_MUL_pos
  have h1 : 0 < NaF_alpha_h v := by unfold NaF_alpha_h; positivity
  have h2 : 0 < NaF_beta_h v := by unfold NaF_beta_h; positivity
  linarith

/- ------------------------------------------------------------------
KA channel of `granule_cell_hhchannel2.py` (`make_channel_KA`):
`tau = 0.41e-3 * exp(-((v - 10e-3) - (-43.5e-3))/0.0428) + 0.167e-3`
`tauExpr = ~(tau := ..., Q10_MUL * tau)`
`infExpr = 1 / (1 + exp(-((v - 10e-3) - (-46.7e-3))/19.8))`
(h-gate analogous).
------------------------------------------------------------------- -/

/-- hhchannel2 KA m-gate let-bound `tau` sub-expression (before the
temperature factor is applied). -/
noncomputable def KA_tau_m_base (v : ℝ) : ℝ :=
  0.41e-3 * Real.exp (-((v - 10e-3) - (-43.5e-3)) / 0.0428) + 0.167e-3

/-- hhchannel2 KA m-gate `tauExpr = Q10_MUL * tau`. -/
noncomputable def KA_tau_m (v : ℝ) : ℝ := Q10_MUL * KA_tau_m_base v

/-- hhchannel2 KA m-gate `infExpr`. -/
noncomputable def KA_inf_m (v : ℝ) : ℝ :=
  1 / (1 + Real.exp (-((v - 10e-3) - (-46.7e-3)) / 19.8))

/-- hhchannel2 KA h-gate let-bound `tau` sub-expression. -/
noncomputable def KA_tau_h_base (v : ℝ) : ℝ :=
  0.001 * (10.8 + 30 * (v - 10e-3) +
    1 / (57.9 * Real.exp ((v - 10e-3) * 127) +
         134e-6 * Real.exp (-59 * (v - 10e-3))))

/-- hhchannel2 KA h-gate `tauExpr = Q10_MUL * tau`. -/
noncomputable def KA_tau_h (v : ℝ) : ℝ := Q10_MUL * KA_tau_h_base v

/-- hhchannel2 KA h-gate `infExpr`. -/
noncomputable def KA_inf_h (v : ℝ) : ℝ :=
  1 / (1 + Real.exp (-((v - 10e-3) - (-78.8e-3)) / 0.0084))

lemma KA_tau_m_base_pos (v : ℝ) : 0 < KA_tau_m_base v := by
  unfold KA_tau_m_base
  positivity

end GranuleHH2

namespace GranuleF

/- ------------------------------------------------------------------
KDr channel of `granule_cell.py` (`make_channel_KDr`), an `HHChannelF`
whose rate strings carry no temperature factor:
`mgate.alpha = 170 * exp(73 * ((v - 10e-3) - (-38e-3)))`
`mgate.beta  = 170 * exp(-18 * ((v - 10e-3) - (-38e-3)))`.
------------------------------------------------------------------- -/

/-- granule_cell KDr m-gate forward rate. -/
noncomputable def KDr_alpha_m (v : ℝ) : ℝ :=
  170 * Real.exp (73 * ((v - 10e-3) - (-38e-3)))

/-- granule_cell KDr m-gate backward rate. -/
noncomputable def KDr_beta_m (v : ℝ) : ℝ :=
  170 * Real.exp (-18 * ((v - 10e-3) - (-38e-3)))

/-- Modelled from the spec: `HHChannelF` rate evaluation lives in the external
MOOSE engine, not under `src/`; per the common `(A, B)` representation of the spec
(§3, §4.3, and as written out for the tabulated `AlphaBeta` gates in
`granule_cell_hhchannel.py`), `A = alpha`.  granule_cell KDr m-gate `A`. -/
noncomputable def KDr_tableA_m (v : ℝ) : ℝ := KDr_alpha_m v

/-- Modelled from the spec: as for `KDr_tableA_m`; `B = alpha + beta` for an
`AlphaBeta` gate.  granule_cell KDr m-gate `B`. -/
noncomputable def KDr_tableB_m (v : ℝ) : ℝ := KDr_alpha_m v + KDr_beta_m v

end GranuleF

/-- C2: the two rate tables encode one common `(A, B)` representation.  An
`AlphaBeta` gate (CaHVA m- and h-gates) stores `tableA = alpha` and
`tableB = alpha + beta` at every sample; a `TauInf` gate (NaF m- and h-gates)
stores `tableA = inf/tau` and `tableB = 1/tau`.  Consequently the diagnostic
export `plot_hhgate` recovers `beta` as `tableB - tableA`, `tau` as
`1/tableB`, and `inf` as `tableA/tableB`.  Stated for every real voltage `v`,
hence in particular at each of the `divs + 1` grid points. -/
theorem tables_encode_common_AB (v : ℝ) :
    (GranuleHH1.CaHVA_tableA_m v = GranuleHH1.CaHVA_alpha_m v ∧
     GranuleHH1.CaHVA_tableB_m v =
       GranuleHH1.CaHVA_alpha_m v + GranuleHH1.CaHVA_beta_m v ∧
     GranuleHH1.CaHVA_tableB_m v - GranuleHH1.CaHVA_tableA_m v =
       GranuleHH1.CaHVA_beta_m v ∧
     GranuleHH1.CaHVA_tableB_h v - GranuleHH1.CaHVA_tableA_h v =
       GranuleHH1.CaHVA_beta_h v ∧
     GranuleHH1.CaHVA_tableA_h v / GranuleHH1.CaHVA_tableB_h v =
       GranuleHH1.CaHVA_alpha_h v /
         (GranuleHH1.CaHVA_alpha_h v + GranuleHH1.CaHVA_beta_h v)) ∧
    (GranuleHH1.NaF_tableA_m v = GranuleHH1.NaF_inf_m v / GranuleHH1.NaF_tau_m v ∧
     GranuleHH1.NaF_tableB_m v = 1 / GranuleHH1.NaF_tau_m v ∧
     1 / GranuleHH1.NaF_tableB_m v = GranuleHH1.NaF_tau_m v ∧
     GranuleHH1.NaF_tableA_m v / GranuleHH1.NaF_tableB_m v =
       GranuleHH1.NaF_inf_m v ∧
     1 / GranuleHH1.NaF_tableB_h v = GranuleHH1.NaF_tau_h v ∧
     GranuleHH1.NaF_tableA_h v / GranuleHH1.NaF_tableB_h v =
       GranuleHH1.NaF_inf_h v) := by
  have htm : GranuleHH1.NaF_tau_m v ≠ 0 := ne_of_gt (GranuleHH1.NaF_tau_m_pos v)
  have hth : GranuleHH1.NaF_tau_h v ≠ 0 := ne_of_gt (GranuleHH1.NaF_tau_h_pos v)
  refine ⟨⟨rfl, rfl, ?_, ?_, rfl⟩, rfl, rfl, ?_, ?_, ?_, ?_⟩
  · unfold GranuleHH1.CaHVA_tableB_m GranuleHH1.CaHVA_tableA_m
    ring
  · unfold GranuleHH1.CaHVA_tableB_h GranuleHH1.CaHVA_tableA_h
    ring
  · rw [GranuleHH1.NaF_tableB_m, one_div_one_div]
  · rw [GranuleHH1.NaF_tableA_m, GranuleHH1.NaF_tableB_m]
    field_simp
  · rw [GranuleHH1.NaF_tableB_h, one_div_one_div]
  · rw [GranuleHH1.NaF_tableA_h, GranuleHH1.NaF_tableB_h]
    field_simp

/-- C3: whenever a rate-law denominator `alpha + beta` is exactly zero the
evaluated time constant is the explicit caller-specified fallback — `0` for
the `np.where` guard of `granule_cell_hhchannel.py` and the (nonnegative)
floor for the `?:`-guard of `granule_cell_hhchannel2.py` — never a
division-by-zero; and for the NaF gates as actually constructed the common
denominator `alpha + beta` is strictly positive at every voltage, so the
unguarded `inf = alpha/(alpha+beta)`, computed from the same denominator,
is `safeDiv`-defined everywhere: no NaN/Inf enters any table value. -/
theorem singular_denominator_fallback :
    (∀ a b fl : ℝ, a + b = 0 → GranuleHH1.tau_guard a b fl = 0) ∧
    (∀ a b fl : ℝ, a + b = 0 → 0 ≤ fl →
      max (if a + b = 0 then 0 else 1 / (a + b)) fl = fl) ∧
    (∀ v : ℝ,
      0 < GranuleHH1.NaF_alpha_m v + GranuleHH1.NaF_beta_m v ∧
      0 < GranuleHH1.NaF_alpha_h v + GranuleHH1.NaF_beta_h v ∧
      0 < GranuleHH2.NaF_alpha_m v + GranuleHH2.NaF_beta_m v ∧
      0 < GranuleHH2.NaF_alpha_h v + GranuleHH2.NaF_beta_h v ∧
      (safeDiv (GranuleHH1.NaF_alpha_m v)
        (GranuleHH1.NaF_alpha_m v + GranuleHH1.NaF_beta_m v)).isSome = true ∧
      (safeDiv (GranuleHH2.NaF_alpha_m v)
        (GranuleHH2.NaF_alpha_m v + GranuleHH2.NaF_beta_m v)).isSome = true ∧
      0 < GranuleHH1.NaF_tau_m v ∧ 0 < GranuleHH1.NaF_tau_h v) := by
  refine ⟨?_, ?_, ?_⟩
  · intro a b fl hab
    rw [GranuleHH1.tau_guard, if_pos hab]
  · intro a b fl hab hfl
    rw [if_pos hab]
    exact max_eq_right hfl
  · intro v
    have h1 := GranuleHH1.NaF_denom_m_pos v
    have h2 := GranuleHH1.NaF_denom_h_pos v
    have h3 := GranuleHH2.NaF2_denom_m_pos v
    have h4 := GranuleHH2.NaF2_denom_h_pos v
    refine ⟨h1, h2, h3, h4, ?_, ?_, GranuleHH1.NaF_tau_m_pos v,
      GranuleHH1.NaF_tau_h_pos v⟩
    · rw [safeDiv, if_neg (ne_of_gt h1), Option.isSome_some]
    · rw [safeDiv, if_neg (ne_of_gt h3), Option.isSome_some]

/-- Witness for C3: the guard fallbacks evaluated at the concrete singular
input `a = 1`, `b = -1` (where `a + b = 0`), and the NaF m-gate denominator
at `v = 0`. -/
theorem singular_denominator_fallback_witness :
    GranuleHH1.tau_guard 1 (-1) 5e-5 = 0 ∧
    max (if (1 : ℝ) + (-1) = 0 then 0 else 1 / ((1 : ℝ) + (-1))) 1e-5 =
      (1e-5 : ℝ) ∧
    0 < GranuleHH1.NaF_alpha_m 0 + GranuleHH1.NaF_beta_m 0 :=
  ⟨singular_denominator_fallback.1 1 (-1) 5e-5 (by norm_num),
   singular_denominator_fallback.2.1 1 (-1) 1e-5 (by norm_num) (by norm_num),
   (singular_denominator_fallback.2.2 0).1⟩

/-- C6: the KDr m-gate of `granule_cell.py` is the gate with rates
`alpha(v) = 170*exp(73*(v + 0.038))`, `beta(v) = 170*exp(-18*(v + 0.038))`
(in terms of the shifted voltage `v - 10e-3` that the rate strings use, as
the first conjunct makes explicit); at the point where that shifted voltage
is `-0.038` (membrane voltage `-28e-3`) it yields `alpha = beta = 170`,
hence steady state `xinf = tableA/tableB = 0.5` and time constant
`tau = 1/tableB = 1/340` s exactly. -/
theorem kdr_mgate_closed_form :
    (∀ w : ℝ, GranuleF.KDr_alpha_m (w + 10e-3) =
        170 * Real.exp (73 * (w + 0.038)) ∧
      GranuleF.KDr_beta_m (w + 10e-3) = 170 * Real.exp (-18 * (w + 0.038))) ∧
    GranuleF.KDr_alpha_m (-28e-3) = 170 ∧
    GranuleF.KDr_beta_m (-28e-3) = 170 ∧
    GranuleF.KDr_tableA_m (-28e-3) / GranuleF.KDr_tableB_m (-28e-3) = 0.5 ∧
    1 / GranuleF.KDr_tableB_m (-28e-3) = 1 / 340 := by
  have key : ((-28e-3 : ℝ) - 10e-3) - (-38e-3) = 0 := by norm_num
  have ha : GranuleF.KDr_alpha_m (-28e-3) = 170 := by
    rw [GranuleF.KDr_alpha_m, key, mul_zero, Real.exp_zero, mul_one]
  have hb : GranuleF.KDr_beta_m (-28e-3) = 170 := by
    rw [GranuleF.KDr_beta_m, key, mul_zero, Real.exp_zero, mul_one]
  refine ⟨?_, ha, hb, ?_, ?_⟩
  · intro w
    constructor
    · rw [GranuleF.KDr_alpha_m]
      norm_num
    · rw [GranuleF.KDr_beta_m]
      norm_num
  · rw [GranuleF.KDr_tableA_m, GranuleF.KDr_tableB_m, ha, hb]
    norm_num
  · rw [GranuleF.KDr_tableB_m, ha, hb]
    norm_num

namespace GranuleHH1

/-- The temperature-scaled NaF m-gate time constant as the claim reads it,
written from the words of the spec for the refinement comparison: the unclamped
`1/(alpha+beta)` scaled by `1/factor`. -/
noncomputable def NaF_tauScaled_m (v : ℝ) : ℝ :=
  (1 / (NaF_alpha_m v + NaF_beta_m v)) / q10_mul

/-- Temperature-scaled NaF h-gate time constant (spec-side notion, as for
`NaF_tauScaled_m`). -/
noncomputable def NaF_tauScaled_h (v : ℝ) : ℝ :=
  (1 / (NaF_alpha_h v + NaF_beta_h v)) / q10_mul

end GranuleHH1

lemma cube_le_exp {x : ℝ} (hx : 0 ≤ x) : (x / 3 + 1) ^ 3 ≤ Real.exp x := by
  have h1 : x / 3 + 1 ≤ Real.exp (x / 3) := by
    have := Real.add_one_le_exp (x / 3)
    linarith
  have h2 : (x / 3 + 1) ^ 3 ≤ Real.exp (x / 3) ^ 3 :=
    pow_le_pow_left₀ (by positivity) h1 3
  have h3 : Real.exp (x / 3) ^ 3 = Real.exp x := by
    rw [← Real.exp_nat_mul]
    congr 1
    push_cast
    ring
  linarith [h2, h3.le, h3.ge]

lemma grid566_eq : GranuleHH1.grid 566 = 0.07109375 := by
  rw [GranuleHH1.grid, GranuleHH1.vmin, GranuleHH1.vmax, GranuleHH1.vdivs]
  norm_num

lemma naf_denom_at_grid566 :
    20000 <
      GranuleHH1.NaF_alpha_m (GranuleHH1.grid 566) +
        GranuleHH1.NaF_beta_m (GranuleHH1.grid 566) := by
  have harg :
      81 * (GranuleHH1.Voff (GranuleHH1.grid 566) - (-39e-3)) = 8.10759375 := by
    rw [grid566_eq, GranuleHH1.Voff]
    norm_num
  have hexp : (13.4 : ℝ) ≤ Real.exp 8.10759375 := by
    have h := cube_le_exp (x := 8.10759375) (by norm_num)
    nlinarith [h]
  have ha : (20100 : ℝ) ≤ GranuleHH1.NaF_alpha_m (GranuleHH1.grid 566) := by
    rw [GranuleHH1.NaF_alpha_m, harg]
    nlinarith [hexp]
  have hb : 0 < GranuleHH1.NaF_beta_m (GranuleHH1.grid 566) := by
    rw [GranuleHH1.NaF_beta_m]
    positivity
  linarith

/-- Counterexample to C4: at grid sample 566 (`v = 0.07109375` V) the stored
`tableB` of the `granule_cell_hhchannel.py` NaF m-gate differs from
`1 / max(tau_scaled, floor)` with the caller floor `5e-5`: the source
clamps the *unscaled* `1/(alpha+beta)` against `5e-5` and only then divides
by `q10_mul`, so where the floor is active `tableB = q10_mul/5e-5`, not
`1/5e-5`. -/
theorem naf_floor_order_counterexample :
    GranuleHH1.NaF_tableB_m (GranuleHH1.grid 566) ≠
      1 / max (GranuleHH1.NaF_tauScaled_m (GranuleHH1.grid 566)) 5e-5 := by
  have hD := naf_denom_at_grid566
  have hq0 := GranuleHH1.q10_mul_pos
  have hq1 := GranuleHH1.one_lt_q10_mul
  set D := GranuleHH1.NaF_alpha_m (GranuleHH1.grid 566) +
    GranuleHH1.NaF_beta_m (GranuleHH1.grid 566) with hDdef
  have hDpos : (0 : ℝ) < D := by linarith
  have hinv : 1 / D < 5e-5 := by
    rw [div_lt_iff₀ hDpos]
    nlinarith
  have hguard : GranuleHH1.tau_guard (GranuleHH1.NaF_alpha_m (GranuleHH1.grid 566))
      (GranuleHH1.NaF_beta_m (GranuleHH1.grid 566)) 5e-5 = 5e-5 := by
    rw [GranuleHH1.tau_guard, if_neg (by rw [← hDdef]; exact ne_of_gt hDpos),
      ← hDdef]
    exact max_eq_right hinv.le
  have hlhs : GranuleHH1.NaF_tableB_m (GranuleHH1.grid 566) =
      GranuleHH1.q10_mul * 20000 := by
    rw [GranuleHH1.NaF_tableB_m, GranuleHH1.NaF_tau_m, GranuleHH1.NaF_tau_m_f,
      hguard]
    rw [one_div_div]
    ring
  have hscaled : GranuleHH1.NaF_tauScaled_m (GranuleHH1.grid 566) ≤ 5e-5 := by
    rw [GranuleHH1.NaF_tauScaled_m, ← hDdef]
    calc (1 / D) / GranuleHH1.q10_mul ≤ 1 / D := by
          apply div_le_self (by positivity) hq1.le
      _ ≤ 5e-5 := hinv.le
  have hrhs : 1 / max (GranuleHH1.NaF_tauScaled_m (GranuleHH1.grid 566)) 5e-5 =
      20000 := by
    rw [max_eq_right hscaled]
    norm_num
  rw [hlhs, hrhs]
  intro h
  nlinarith

/-- C4 amended: in `granule_cell_hhchannel2.py` the tau floor is applied
after the Q10 scaling of the rates (the rates carry the factor), so
`tableB = 1/max(tau_scaled, floor)` with floors `1e-5` (m) and `0.045e-3`
(h); in `granule_cell_hhchannel.py` the clamp is applied to the unscaled
`1/(alpha+beta)` before the division by `q10_mul`, so
`tableB = 1/max(tau_scaled, floor/q10_mul)` with floors `5e-5` (m) and
`2.25e-4` (h). -/
theorem naf_floor_placement (v : ℝ) :
    GranuleHH2.NaF_tableB_m v =
      1 / max (1 / (GranuleHH2.NaF_alpha_m v + GranuleHH2.NaF_beta_m v)) 1e-5 ∧
    GranuleHH2.NaF_tableB_h v =
      1 / max (1 / (GranuleHH2.NaF_alpha_h v + GranuleHH2.NaF_beta_h v))
        0.045e-3 ∧
    GranuleHH1.NaF_tableB_m v =
      1 / max (GranuleHH1.NaF_tauScaled_m v) (5e-5 / GranuleHH1.q10_mul) ∧
    GranuleHH1.NaF_tableB_h v =
      1 / max (GranuleHH1.NaF_tauScaled_h v) (2.25e-4 / GranuleHH1.q10_mul) := by
  have hq0 := GranuleHH1.q10_mul_pos
  refine ⟨?_, ?_, ?_, ?_⟩
  · rw [GranuleHH2.NaF_tableB_m, GranuleHH2.NaF_tau_m,
      if_neg (ne_of_gt (GranuleHH2.NaF2_denom_m_pos v))]
  · rw [GranuleHH2.NaF_tableB_h, GranuleHH2.NaF_tau_h,
      if_neg (ne_of_gt (GranuleHH2.NaF2_denom_h_pos v))]
  · rw [GranuleHH1.NaF_tableB_m, GranuleHH1.NaF_tau_m, GranuleHH1.NaF_tau_m_f,
      GranuleHH1.tau_guard, if_neg (ne_of_gt (GranuleHH1.NaF_denom_m_pos v)),
      GranuleHH1.NaF_tauScaled_m, max_div_div_right hq0.le]
  · rw [GranuleHH1.NaF_tableB_h, GranuleHH1.NaF_tau_h, GranuleHH1.NaF_tau_h_f,
      GranuleHH1.tau_guard, if_neg (ne_of_gt (GranuleHH1.NaF_denom_h_pos v)),
      GranuleHH1.NaF_tauScaled_h, max_div_div_right hq0.le]

/-- Counterexample to C5: the KA m-gate of `granule_cell_hhchannel2.py` does
not scale its time constant by `1/factor`: its `tauExpr` multiplies the
let-bound `tau` by `Q10_MUL`, so at `v = 10e-3` the evaluated time constant
differs from `tau/Q10_MUL`. -/
theorem ka_tau_scaling_counterexample :
    GranuleHH2.KA_tau_m 10e-3 ≠
      GranuleHH2.KA_tau_m_base 10e-3 / GranuleHH2.Q10_MUL := by
  intro h
  have ht := GranuleHH2.KA_tau_m_base_pos 10e-3
  have hq := GranuleHH2.one_lt_Q10_MUL
  have hq0 := GranuleHH2.Q10_MUL_pos
  rw [GranuleHH2.KA_tau_m] at h
  have h2 : GranuleHH2.Q10_MUL * (GranuleHH2.Q10_MUL *
      GranuleHH2.KA_tau_m_base 10e-3) = GranuleHH2.KA_tau_m_base 10e-3 := by
    rw [h]
    field_simp
  have h3 : (1 : ℝ) < GranuleHH2.Q10_MUL * GranuleHH2.Q10_MUL := by nlinarith
  nlinarith [mul_lt_mul_of_pos_right h3 ht]

/-- C5 amended: for the tau/inf-form gates, the steady-state function `inf`
is unchanged by temperature correction (the `inf` expressions carry no Q10
factor, and uniform scaling of alpha and beta cancels from
`alpha/(alpha+beta)`), and the NaF gates of `granule_cell_hhchannel.py`
scale their (clamped) time constant by `1/factor`; but the KA m- and h-gates
of `granule_cell_hhchannel2.py` instead *multiply* tau by the factor
`Q10_MUL` — for the m-gate the result differs from the `1/factor` scaling at
every voltage. -/
theorem tauinf_temperature_scaling (v f : ℝ) (hf : 0 < f) :
    GranuleHH1.NaF_tau_m_f f v = GranuleHH1.NaF_tau_m_f 1 v / f ∧
    GranuleHH1.NaF_tau_h_f f v = GranuleHH1.NaF_tau_h_f 1 v / f ∧
    f * GranuleHH1.NaF_alpha_m v /
        (f * GranuleHH1.NaF_alpha_m v + f * GranuleHH1.NaF_beta_m v) =
      GranuleHH1.NaF_inf_m v ∧
    GranuleHH2.NaF_inf_m v = GranuleHH1.NaF_inf_m v ∧
    GranuleHH2.NaF_inf_h v = GranuleHH1.NaF_inf_h v ∧
    GranuleHH2.KA_tau_m v = GranuleHH2.Q10_MUL * GranuleHH2.KA_tau_m_base v ∧
    GranuleHH2.KA_tau_h v = GranuleHH2.Q10_MUL * GranuleHH2.KA_tau_h_base v ∧
    GranuleHH2.KA_tau_m v ≠
      GranuleHH2.KA_tau_m_base v / GranuleHH2.Q10_MUL := by
  have hq := GranuleHH2.one_lt_Q10_MUL
  have hq0 := GranuleHH2.Q10_MUL_pos
  have hd1 := GranuleHH1.NaF_denom_m_pos v
  have hdh := GranuleHH1.NaF_denom_h_pos v
  refine ⟨?_, ?_, ?_, ?_, ?_, rfl, rfl, ?_⟩
  · rw [GranuleHH1.NaF_tau_m_f, GranuleHH1.NaF_tau_m_f, div_one]
  · rw [GranuleHH1.NaF_tau_h_f, GranuleHH1.NaF_tau_h_f, div_one]
  · rw [GranuleHH1.NaF_inf_m, ← mul_add,
      mul_div_mul_left _ _ (ne_of_gt hf)]
  · rw [GranuleHH2.NaF_inf_m, GranuleHH1.NaF_inf_m, GranuleHH2.NaF_alpha_m,
      GranuleHH2.NaF_beta_m, GranuleHH1.NaF_alpha_m, GranuleHH1.NaF_beta_m,
      GranuleHH1.Voff]
    rw [mul_assoc, mul_assoc, ← mul_add,
      mul_div_mul_left _ _ (ne_of_gt hq0)]
  · rw [GranuleHH2.NaF_inf_h, GranuleHH1.NaF_inf_h, GranuleHH2.NaF_alpha_h,
      GranuleHH2.NaF_beta_h, GranuleHH1.NaF_alpha_h, GranuleHH1.NaF_beta_h,
      GranuleHH1.Voff]
    rw [mul_assoc, mul_assoc, ← mul_add,
      mul_div_mul_left _ _ (ne_of_gt hq0)]
  · intro h
    have ht := GranuleHH2.KA_tau_m_base_pos v
    rw [GranuleHH2.KA_tau_m] at h
    have h2 : GranuleHH2.Q10_MUL * (GranuleHH2.Q10_MUL *
        GranuleHH2.KA_tau_m_base v) = GranuleHH2.KA_tau_m_base v := by
      rw [h]
      field_simp
    have h3 : (1 : ℝ) < GranuleHH2.Q10_MUL * GranuleHH2.Q10_MUL := by nlinarith
    nlinarith [mul_lt_mul_of_pos_right h3 ht]

/-- Witness for C5 amended: concrete instantiation at `v = 0`, `f = 2`. -/
theorem tauinf_temperature_scaling_witness :
    GranuleHH1.NaF_tau_m_f 2 0 = GranuleHH1.NaF_tau_m_f 1 0 / 2 ∧
    GranuleHH2.NaF_inf_m 0 = GranuleHH1.NaF_inf_m 0 :=
  ⟨(tauinf_temperature_scaling 0 2 (by norm_num)).1,
   (tauinf_temperature_scaling 0 2 (by norm_num)).2.2.2.1⟩

lemma caHVA_x_grid_ne_zero (i : ℕ) : GranuleHH1.CaHVA_x (GranuleHH1.grid i) ≠ 0 := by
  rw [GranuleHH1.CaHVA_x, GranuleHH1.Voff, GranuleHH1.grid, GranuleHH1.vmin,
    GranuleHH1.vmax, GranuleHH1.vdivs]
  intro h
  rw [div_eq_zero_iff] at h
  rcases h with h | h
  · have hc : ((i : ℝ)) * 1000 = 386816 := by
      have h2 : (i : ℝ) * ((100e-3 - -150e-3) / 640) = 0.1511 := by linarith
      nlinarith [h2]
    have hc2 : ((i * 1000 : ℕ) : ℝ) = ((386816 : ℕ) : ℝ) := by
      push_cast
      linarith
    have hc3 : i * 1000 = 386816 := Nat.cast_injective hc2
    omega
  · norm_num at h

lemma caHVA_beta_m_denom_ne (v : ℝ) (hx : GranuleHH1.CaHVA_x v ≠ 0) :
    1 - Real.exp (-GranuleHH1.CaHVA_x v) ≠ 0 := by
  intro h
  have h1 : Real.exp (-GranuleHH1.CaHVA_x v) = 1 := by linarith
  rw [Real.exp_eq_one_iff, neg_eq_zero] at h1
  exact hx h1

/-- C8: at every point of the voltage grid `linspace(-150e-3, 100e-3, 641)`
all table entries of the channels of `granule_cell_hhchannel.py` are finite:
the CaHVA m-gate beta — `100*x/(1 - exp(-x))` with
`x = (V + 8.9e-3)/(-0.005)`, whose removable `0/0` singularity sits at
`V = -8.9e-3`, i.e. grid voltage `1.1e-3` — is `safeDiv`-defined because no
grid index lands on that voltage (`i = 386.816` is not an integer), and every
other denominator (CaHVA `alpha_m`, KDR h-gate `beta`, the NaF denominators
`alpha + beta`, and the NaF time constants) is strictly positive, so no
NaN/Inf enters `tableA` or `tableB`. -/
theorem tables_finite_on_grid (i : ℕ) (_hi : i ≤ 640) :
    (GranuleHH1.CaHVA_beta_m_safe (GranuleHH1.grid i)).isSome = true ∧
    1 - Real.exp (-GranuleHH1.CaHVA_x (GranuleHH1.grid i)) ≠ 0 ∧
    0 < 1 + Real.exp (-72 * (GranuleHH1.Voff (GranuleHH1.grid i) - 5e-3)) ∧
    0 < GranuleHH1.CaHVA_alpha_h (GranuleHH1.grid i) +
        GranuleHH1.CaHVA_beta_h (GranuleHH1.grid i) ∧
    0 < 1 + Real.exp (-80.7 * (GranuleHH1.Voff (GranuleHH1.grid i) - (-0.044))) ∧
    0 < GranuleHH1.NaF_alpha_m (GranuleHH1.grid i) +
        GranuleHH1.NaF_beta_m (GranuleHH1.grid i) ∧
    0 < GranuleHH1.NaF_alpha_h (GranuleHH1.grid i) +
        GranuleHH1.NaF_beta_h (GranuleHH1.grid i) ∧
    GranuleHH1.NaF_tau_m (GranuleHH1.grid i) ≠ 0 ∧
    GranuleHH1.NaF_tau_h (GranuleHH1.grid i) ≠ 0 := by
  have hx := caHVA_x_grid_ne_zero i
  have hden := caHVA_beta_m_denom_ne _ hx
  refine ⟨?_, hden, by positivity, GranuleHH1.CaHVA_h_denom_pos _, by positivity,
    GranuleHH1.NaF_denom_m_pos _, GranuleHH1.NaF_denom_h_pos _,
    ne_of_gt (GranuleHH1.NaF_tau_m_pos _), ne_of_gt (GranuleHH1.NaF_tau_h_pos _)⟩
  rw [GranuleHH1.CaHVA_beta_m_safe, safeDiv, if_neg hden]
  rfl

/-- Witness for C8: the finiteness conjunction instantiated at grid index 0
(`v = -150e-3`). -/
theorem tables_finite_on_grid_witness :
    (GranuleHH1.CaHVA_beta_m_safe (GranuleHH1.grid 0)).isSome = true ∧
    1 - Real.exp (-GranuleHH1.CaHVA_x (GranuleHH1.grid 0)) ≠ 0 ∧
    0 < 1 + Real.exp (-72 * (GranuleHH1.Voff (GranuleHH1.grid 0) - 5e-3)) ∧
    0 < GranuleHH1.CaHVA_alpha_h (GranuleHH1.grid 0) +
        GranuleHH1.CaHVA_beta_h (GranuleHH1.grid 0) ∧
    0 < 1 + Real.exp (-80.7 * (GranuleHH1.Voff (GranuleHH1.grid 0) - (-0.044))) ∧
    0 < GranuleHH1.NaF_alpha_m (GranuleHH1.grid 0) +
        GranuleHH1.NaF_beta_m (GranuleHH1.grid 0) ∧
    0 < GranuleHH1.NaF_alpha_h (GranuleHH1.grid 0) +
        GranuleHH1.NaF_beta_h (GranuleHH1.grid 0) ∧
    GranuleHH1.NaF_tau_m (GranuleHH1.grid 0) ≠ 0 ∧
    GranuleHH1.NaF_tau_h (GranuleHH1.grid 0) ≠ 0 :=
  tables_finite_on_grid 0 (by decide)

/-- Modelled from the spec: the GateStateIntegrator (§4.4) lives in the
external MOOSE engine, not under `src/`.  One step of the exact exponential
update for `dx/dt = A - B*x` at fixed voltage:
`x(t+dt) = xinf + (x(t) - xinf) * exp(-dt*B)` with `xinf = A/B`.  (When
`B = 0` the two `A/B` occurrences cancel against `exp 0 = 1`, so the formula
itself holds the state constant, matching the edge case of the spec.) -/
noncomputable def gateStep (A B dt x : ℝ) : ℝ :=
  A / B + (x - A / B) * Real.exp (-dt * B)

/-- Modelled from the spec: repeated application of the gate update (§8,
"Stability"): `gateIter A B dt x n` is the state after `n` steps from `x`. -/
noncomputable def gateIter (A B dt x : ℝ) : ℕ → ℝ
  | 0 => x
  | n + 1 => gateStep A B dt (gateIter A B dt x n)

lemma gateIter_closed (A B dt x : ℝ) (n : ℕ) :
    gateIter A B dt x n = A / B + (x - A / B) * Real.exp (-dt * B) ^ n := by
  induction n with
  | zero => rw [gateIter, pow_zero, mul_one]; ring
  | succ n ih =>
    rw [gateIter, gateStep, ih]
    ring

/-- C7: for every timestep `dt > 0`, rate entries `A`, `B` with `B ≥ 0`,
initial state `x ∈ [0,1]` and steady state `xinf = A/B ∈ [0,1]`, the
exponential update keeps the state in `[0,1]`, its distance to `xinf` is
monotonically non-increasing, repeated application converges to `xinf`
whenever `B > 0`, and `B = 0` holds the state constant for every step. -/
theorem gate_update_stable (A B dt x : ℝ) (hdt : 0 < dt) (hB : 0 ≤ B)
    (hx0 : 0 ≤ x) (hx1 : x ≤ 1) (hinf0 : 0 ≤ A / B) (hinf1 : A / B ≤ 1) :
    (∀ n, 0 ≤ gateIter A B dt x n ∧ gateIter A B dt x n ≤ 1) ∧
    (∀ n, |gateIter A B dt x (n + 1) - A / B| ≤
          |gateIter A B dt x n - A / B|) ∧
    (0 < B →
      Filter.Tendsto (gateIter A B dt x) Filter.atTop (nhds (A / B))) ∧
    (B = 0 → ∀ n, gateIter A B dt x n = x) := by
  have he0 : 0 < Real.exp (-dt * B) := Real.exp_pos _
  have he1 : Real.exp (-dt * B) ≤ 1 := by
    rw [Real.exp_le_one_iff]
    nlinarith
  refine ⟨?_, ?_, ?_, ?_⟩
  · intro n
    rw [gateIter_closed]
    have hp0 : 0 < Real.exp (-dt * B) ^ n := pow_pos he0 n
    have hp1 : Real.exp (-dt * B) ^ n ≤ 1 := pow_le_one₀ he0.le he1
    constructor
    · nlinarith
    · nlinarith
  · intro n
    rw [gateIter_closed, gateIter_closed]
    have h1 : A / B + (x - A / B) * Real.exp (-dt * B) ^ (n + 1) - A / B =
        (x - A / B) * Real.exp (-dt * B) ^ (n + 1) := by ring
    have h2 : A / B + (x - A / B) * Real.exp (-dt * B) ^ n - A / B =
        (x - A / B) * Real.exp (-dt * B) ^ n := by ring
    rw [h1, h2, abs_mul, abs_mul]
    apply mul_le_mul_of_nonneg_left _ (abs_nonneg _)
    rw [abs_of_pos (pow_pos he0 _), abs_of_pos (pow_pos he0 _), pow_succ]
    nlinarith [pow_pos he0 n]
  · intro hBpos
    have helt : Real.exp (-dt * B) < 1 := by
      rw [Real.exp_lt_one_iff]
      nlinarith
    have hlim : Filter.Tendsto (fun n : ℕ => Real.exp (-dt * B) ^ n)
        Filter.atTop (nhds 0) :=
      tendsto_pow_atTop_nhds_zero_of_lt_one he0.le helt
    have hlim2 : Filter.Tendsto
        (fun n : ℕ => A / B + (x - A / B) * Real.exp (-dt * B) ^ n)
        Filter.atTop (nhds (A / B + (x - A / B) * 0)) :=
      ((hlim.const_mul (x - A / B)).const_add (A / B))
    rw [mul_zero, add_zero] at hlim2
    exact hlim2.congr (fun n => (gateIter_closed A B dt x n).symm)
  · intro hB0 n
    rw [gateIter_closed, hB0, mul_zero, Real.exp_zero, one_pow]
    ring

/-- Witness for C7: the stability conjunction applied at `A = 1`, `B = 2`,
`dt = 1`, `x = 0` (so `xinf = 1/2`), instantiated at step 1. -/
theorem gate_update_stable_witness :
    (0 ≤ gateIter 1 2 1 0 1 ∧ gateIter 1 2 1 0 1 ≤ 1) ∧
    |gateIter 1 2 1 0 1 - 1 / 2| ≤ |gateIter 1 2 1 0 0 - 1 / 2| := by
  have h := gate_update_stable 1 2 1 0 (by norm_num) (by norm_num)
    (by norm_num) (by norm_num) (by norm_num) (by norm_num)
  have h1 := h.1 1
  have h2 := h.2.1 0
  norm_num at h1 h2 ⊢
  exact ⟨h1, h2⟩

/-- Abstract state of the model-building environment of
`traub_2005/mus/cells.py`: the element paths that exist under the MOOSE root,
whether `init_channels()` has run, the data files read so far, the
`(file, path)` pairs passed to `moose.loadModel`, and which prototypes had
compartment `z` (depth) fields written. -/
structure TraubState where
  elements : List String
  channelsInited : Bool
  reads : List String
  loaded : List (String × String)
  depthWrites : List String

/-- The `cell_spec` dictionary of `cells.py`, as an association list of
association lists (insertion order preserved). -/
def cell_spec : List (String × List (String × String)) :=
  [("DeepAxoaxonic", [("proto", "DeepAxoaxonic.p")]),
   ("DeepBasket", [("proto", "DeepBasket.p")]),
   ("DeepLTS", [("proto", "DeepLTS.p"), ("levels", "DeepLTS.levels")]),
   ("NontuftedRS", [("proto", "NontuftedRS.p"), ("depths", "NontuftedRS.depths"),
                    ("levels", "NontuftedRS.levels")]),
   ("nRT", [("proto", "nRT.p")]),
   ("SpinyStellate", [("proto", "SpinyStellate.p"),
                      ("levels", "SpinyStellate.levels")]),
   ("SupAxoaxonic", [("proto", "SupAxoaxonic.p"),
                     ("levels", "SupAxoaxonic.levels")]),
   ("SupBasket", [("proto", "SupBasket.p")]),
   ("SupLTS", [("proto", "SupLTS.p")]),
   ("SupPyrFRB", [("proto", "SupPyrFRB.p"), ("depths", "SupPyrFRB.depths"),
                  ("levels", "SupPyrFRB.levels")]),
   ("SupPyrRS", [("proto", "SupPyrRS.p")]),
   ("TCR", [("proto", "TCR.p"), ("levels", "TCR.levels")]),
   ("TuftedIB", [("proto", "TuftedIB.p"), ("levels", "TuftedIB.levels")]),
   ("TuftedRS", [("proto", "TuftedRS.p")])]

/-- Modelled from the spec: `get_proto` is defined in `channels.py`, a file of
this repository that is not under `src/`; by its use in `get_cell` (and the
docstring "Returns a prototype cell with name `name` under `parent`, creating
it if it does not exist") it returns the existing prototype element
`parent/name` when present, else a falsy value. -/
def get_proto (name parent : String) (s : TraubState) : Option String :=
  if (parent ++ "/" ++ name) ∈ s.elements then some (parent ++ "/" ++ name)
  else none

/-- Modelled from the spec: `init_channels` is defined in `channels.py`
(outside `src/`); it initialises the channel prototype library, recorded here
as a flag. -/
def init_channels (s : TraubState) : TraubState :=
  { s with channelsInited := true }

/-- Modelled from the spec: `moose.loadModel` belongs to the external engine
(§6: construction-time loading is delegated); it creates the prototype at
`path` from `file`, recorded as a new element plus the `(file, path)` call. -/
def loadModel (file path : String) (s : TraubState) : TraubState :=
  { s with elements := path :: s.elements, loaded := (file, path) :: s.loaded }

/-- Modelled from the spec: `pandas.read_csv` is external; only the fact that
the data file was read is observable here. -/
def read_csv (file : String) (s : TraubState) : TraubState :=
  { s with reads := file :: s.reads }

/-- Modelled from the spec: the loop body of `assign_depths` sets the `z`
field of the prototype compartments from the two data files (external
`moose.element` writes); recorded as a depth write against the prototype. -/
def depth_loop (proto : String) (s : TraubState) : TraubState :=
  { s with depthWrites := proto :: s.depthWrites }

/-- The `assign_depths` function of `cells.py`: fetch the key `depth` from
the spec dictionary and return immediately when it is absent; otherwise, when
both `depths` and `levels` files are configured, read both files and
assign compartment depths. -/
def assign_depths (proto : String) (spec : List (String × String))
    (protodir : String) (s : TraubState) : TraubState :=
  if List.lookup ("depth") spec = none then s
  else
    match List.lookup ("depths") spec, List.lookup ("levels") spec with
    | some dfile, some lfile =>
        depth_loop proto
          (read_csv (protodir ++ "/" ++ lfile)
            (read_csv (protodir ++ "/" ++ dfile) s))
    | _, _ => s

/-- The `get_cell` function of `cells.py`: return the existing prototype if
`get_proto` finds one; otherwise run `init_channels`, load the model file,
call `assign_depths`, and fall off the end (the implicit Python `None`).  The
outer `Option` is `none` exactly when `spec["proto"]` would raise `KeyError`. -/
def get_cell (name : String) (spec : List (String × String))
    (parent protodir : String) (s : TraubState) :
    Option (Option String × TraubState) :=
  match get_proto name parent s with
  | some cell => some (some cell, s)
  | none =>
    let s1 := init_channels s
    match List.lookup ("proto") spec with
    | none => none
    | some pfile =>
      let s2 := loadModel (protodir ++ "/" ++ pfile) (parent ++ "/" ++ name) s1
      let s3 := assign_depths (parent ++ "/" ++ name) spec protodir s2
      some (none, s3)

lemma assign_depths_fields (proto : String) (spec : List (String × String))
    (pd : String) (s : TraubState) :
    (assign_depths proto spec pd s).channelsInited = s.channelsInited ∧
    (assign_depths proto spec pd s).elements = s.elements ∧
    (assign_depths proto spec pd s).loaded = s.loaded := by
  rw [assign_depths]
  split
  · exact ⟨rfl, rfl, rfl⟩
  · split
    · exact ⟨rfl, rfl, rfl⟩
    · exact ⟨rfl, rfl, rfl⟩

/-- C9: `get_cell` returns the existing prototype element (with the state
untouched) when one named `name` already exists under `parent`; when none
exists it initialises the channel library, loads the model file
`protodir/spec["proto"]` at `parent/name`, runs the depth-assignment step on
the loaded prototype, and returns the implicit Python `None` — the newly
created prototype element is not returned, although it exists in the final
state. -/
theorem get_cell_behavior (name : String) (spec : List (String × String))
    (parent protodir : String) (s : TraubState) :
    (∀ c, get_proto name parent s = some c →
      get_cell name spec parent protodir s = some (some c, s)) ∧
    (get_proto name parent s = none →
      ∀ pf, List.lookup ("proto") spec = some pf →
        get_cell name spec parent protodir s =
          some (none,
            assign_depths (parent ++ "/" ++ name) spec protodir
              (loadModel (protodir ++ "/" ++ pf) (parent ++ "/" ++ name)
                (init_channels s))) ∧
        (assign_depths (parent ++ "/" ++ name) spec protodir
            (loadModel (protodir ++ "/" ++ pf) (parent ++ "/" ++ name)
              (init_channels s))).channelsInited = true ∧
        (parent ++ "/" ++ name) ∈
          (assign_depths (parent ++ "/" ++ name) spec protodir
            (loadModel (protodir ++ "/" ++ pf) (parent ++ "/" ++ name)
              (init_channels s))).elements) := by
  constructor
  · intro c hc
    unfold get_cell
    rw [hc]
  · intro hmiss pf hpf
    have hf := assign_depths_fields (parent ++ "/" ++ name) spec protodir
      (loadModel (protodir ++ "/" ++ pf) (parent ++ "/" ++ name)
        (init_channels s))
    refine ⟨?_, ?_, ?_⟩
    · unfold get_cell
      rw [hmiss, hpf]
    · rw [hf.1]
      rfl
    · rw [hf.2.1]
      exact List.mem_cons_self _ _

/-- Witness for C9: both branches at concrete inputs — a hit on an existing
prototype `/library/TCR`, and a miss starting from the empty state. -/
theorem get_cell_behavior_witness :
    get_cell ("TCR") [("proto", "TCR.p"), ("levels", "TCR.levels")]
        "/library" "proto" ⟨["/library/TCR"], false, [], [], []⟩ =
      some (some ("/library/TCR"), ⟨["/library/TCR"], false, [], [], []⟩) ∧
    get_cell ("TCR") [("proto", "TCR.p"), ("levels", "TCR.levels")]
        "/library" "proto" ⟨[], false, [], [], []⟩ =
      some (none,
        assign_depths ("/library/TCR")
          [("proto", "TCR.p"), ("levels", "TCR.levels")] "proto"
          (loadModel ("proto/TCR.p") ("/library/TCR")
            (init_channels ⟨[], false, [], [], []⟩))) := by
  constructor
  · exact (get_cell_behavior ("TCR") [("proto", "TCR.p"), ("levels", "TCR.levels")]
      "/library" "proto" ⟨["/library/TCR"], false, [], [], []⟩).1
      ("/library/TCR") (by decide)
  · exact ((get_cell_behavior ("TCR") [("proto", "TCR.p"), ("levels", "TCR.levels")]
      "/library" "proto" ⟨[], false, [], [], []⟩).2 (by decide) ("TCR.p")
      (by decide)).1

/-- C10: for every entry of `cell_spec`, `assign_depths` returns at its first
guard: it fetches the key `depth`, which no entry defines (they use
`depths` and `levels`), so the state is returned entirely unchanged — no
compartment field is written and no data file is read; the depth-assignment
loop is unreachable from `cell_spec`. -/
theorem assign_depths_noop :
    ∀ p ∈ cell_spec, List.lookup ("depth") p.2 = none ∧
      ∀ proto protodir s, assign_depths proto p.2 protodir s = s := by
  have hall : ∀ p ∈ cell_spec, List.lookup ("depth") p.2 = none := by decide
  intro p hp
  have h := hall p hp
  exact ⟨h, fun proto protodir s => by rw [assign_depths, if_pos h]⟩

/-- Witness for C10: the `NontuftedRS` entry — the one that configures both a
`depths` and a `levels` file — still leaves an arbitrary concrete state
unchanged. -/
theorem assign_depths_noop_witness :
    List.lookup ("depth")
        [("proto", "NontuftedRS.p"), ("depths", "NontuftedRS.depths"),
         ("levels", "NontuftedRS.levels")] = none ∧
    assign_depths ("/library/NontuftedRS")
        [("proto", "NontuftedRS.p"), ("depths", "NontuftedRS.depths"),
         ("levels", "NontuftedRS.levels")] ("proto")
        ⟨["/library/NontuftedRS"], true, [], [], []⟩ =
      ⟨["/library/NontuftedRS"], true, [], [], []⟩ := by
  have h := assign_depths_noop
    ("NontuftedRS",
      [("proto", "NontuftedRS.p"), ("depths", "NontuftedRS.depths"),
       ("levels", "NontuftedRS.levels")]) (by decide)
  exact ⟨h.1, h.2 ("/library/NontuftedRS") ("proto") _⟩
